import Mathlib

/-!
Shallow embedding of src/price_checker.py.

Modelling conventions:
* Python floats are modelled by PyFloat: finite values as exact rationals plus
  positive infinity (np.inf).  sys.float_info.max is the exact rational
  2^1024 - 2^971.  No NaN arises in the modelled code paths.
* The sqlite table prices (url TEXT, price REAL, time TEXT) is a list of rows;
  timestamps are integers counting seconds (CURRENT_TIMESTAMP has second
  precision and pandas subtraction yields whole seconds here).  get_pricing
  reads CURRENT_TIMESTAMP twice (line 79 and line 103), so the embedding takes
  two clock values now1 and now2.
* The browser is external: each extractor takes an oracle
  page : String -> Option Rat giving the parsed price text found on the page
  for a url (none when the element list is empty, e.g. after a timeout).
* Observable effects (navigation by self.get, the match dispatch, and
  warnings.warn) are recorded in an event log, so "no extraction happened"
  is provable as "the log is empty".
* Python exceptions are modelled as an error outcome.  Two are reachable:
  IndexError from the domain parse on line 70/71, and AttributeError from
  price.round(2) on lines 106/109 -- Python float has no round method, and
  since the exception is raised inside the `with self.sql_conn` block before
  commit(), sqlite3's connection context manager rolls the pending
  UPDATE/INSERT back, leaving the table unchanged.
-/

namespace PriceChecker

/-- Python float values arising in price_checker.py: finite values as exact
rationals, plus positive infinity (np.inf). -/
inductive PyFloat where
  | fin (q : ℚ)
  | inf
deriving DecidableEq

/-- np.inf, the sentinel returned by the extractors on failure. -/
abbrev np_inf : PyFloat := PyFloat.inf

/-- sys.float_info.max, the sentinel used for unsupported domains (line 98);
the IEEE double DBL_MAX is exactly 2^1024 - 2^971. -/
def sys_float_info_max : PyFloat := PyFloat.fin (2 ^ 1024 - 2 ^ 971)

/-- Python `<` on the float values of this program (no NaN reachable). -/
def PyFloat.lt : PyFloat → PyFloat → Bool
  | PyFloat.fin a, PyFloat.fin b => decide (a < b)
  | PyFloat.fin _, PyFloat.inf => true
  | PyFloat.inf, _ => false

/-- The finite value of a PyFloat (0 for infinity; only used where the code
has already checked price < np.inf). -/
def PyFloat.toQ : PyFloat → ℚ
  | PyFloat.fin q => q
  | PyFloat.inf => 0

/-- One row of the sqlite table prices (url TEXT, price REAL, time TEXT). -/
structure Row where
  url : String
  price : PyFloat
  time : Int
deriving DecidableEq

/-- The prices table: a bag of rows (the schema has no uniqueness constraint). -/
abbrev Table := List Row

/-- Observable external effects of a get_pricing call. -/
inductive Ev where
  | navigate (url : String)
  | dispatch (domain : List Char)
  | warn (name : String) (domain : List Char)
deriving DecidableEq

/-- Python exceptions reachable in the embedded code. -/
inductive PyErr where
  | indexError
  | attributeError
deriving DecidableEq

/-- Result of a call: a returned value or a raised exception. -/
inductive Outcome where
  | ok (price : PyFloat)
  | exn (e : PyErr)
deriving DecidableEq

/-- Full observable result of one get_pricing / best_price call: outcome,
committed table state, and event log. -/
structure RunResult where
  out : Outcome
  table : Table
  log : List Ev
deriving DecidableEq

/-- Python str.split with an explicit one-character separator, on the
character list of the string: s.split(sep) has count(sep) + 1 pieces and
never returns an empty list. -/
def pySplit (sep : Char) : List Char → List (List Char)
  | [] => [[]]
  | c :: rest =>
    match pySplit sep rest with
    | [] => [[]]
    | s :: ss => if c = sep then [] :: s :: ss else (c :: s) :: ss

/-- Lines 70-71: domain = url.split('/')[2]; domain = domain.split('.')[1].
Either out-of-range index raises IndexError, modelled as none. -/
def parse_domain (u : String) : Option (List Char) :=
  match (pySplit '/' u.data).get? 2 with
  | none => none
  | some seg => (pySplit '.' seg).get? 1

/-- SELECT ... FROM prices WHERE url=? followed by fetchone: the first row
with the given url, if any. -/
def fetchone (table : Table) (url : String) : Option Row :=
  table.find? (fun r => r.url == url)

/-- The freshness test of line 85:
(time_now - time_last).total_seconds() <= 86400. -/
def is_fresh (r : Row) (now : Int) : Bool :=
  decide (now - r.time ≤ 86400)

/-- get_microcenter_price (lines 28-42): navigate to the url; a timeout is
printed and swallowed; if no pricing element is found return np.inf, else the
parsed content.  The page oracle returns the parsed content of the first
pricing element, or none when the element list is empty. -/
def get_microcenter_price (page : String → Option ℚ) (url : String) :
    PyFloat × List Ev :=
  match page url with
  | none => (np_inf, [Ev.navigate url])
  | some q => (PyFloat.fin q, [Ev.navigate url])

/-- get_amazon_price (lines 44-61): None url short-circuits to np.inf without
navigating; otherwise navigate, and return np.inf when the whole/fraction
elements are missing, else the parsed combined price. -/
def get_amazon_price (page : String → Option ℚ) (url : Option String) :
    PyFloat × List Ev :=
  match url with
  | none => (np_inf, [])
  | some u =>
    match page u with
    | none => (np_inf, [Ev.navigate u])
    | some q => (PyFloat.fin q, [Ev.navigate u])

/-- The write block of lines 100-110.  The UPDATE (when sql_entry_outdated)
or INSERT executes inside the `with self.sql_conn` block, but the following
print interpolates price.round(2), and Python float has no round attribute:
AttributeError is raised before commit(), sqlite3's connection context
manager rolls the open transaction back, and the exception propagates.  The
committed table is therefore the original one. -/
def write_block (outdated : Bool) (u : String) (price : PyFloat) (now2 : Int)
    (table : Table) : Outcome × Table :=
  let _pending : Table :=
    if outdated then
      table.map (fun r => if r.url == u then Row.mk r.url price now2 else r)
    else
      table ++ [Row.mk u price now2]
  (Outcome.exn PyErr.attributeError, table)

/-- Lines 90-111: the match on domain dispatching to an extractor (warning
and sys.float_info.max for unlisted domains), followed by the write block. -/
def dispatch_and_store (micro amazon : String → Option ℚ) (now2 : Int)
    (name u : String) (domain : List Char) (outdated : Bool) (table : Table) :
    RunResult :=
  let pe : PyFloat × List Ev :=
    if domain = "microcenter".data then
      let r := get_microcenter_price micro u
      (r.1, Ev.dispatch domain :: r.2)
    else if domain = "amazon".data then
      let r := get_amazon_price amazon (some u)
      (r.1, Ev.dispatch domain :: r.2)
    else
      (sys_float_info_max, [Ev.warn name domain])
  let wt := write_block outdated u pe.1 now2 table
  RunResult.mk wt.1 wt.2 pe.2

/-- PriceScraper.get_pricing (lines 63-111).  None url returns np.inf at
once; the domain parse may raise IndexError; a cached row fresh at now1 is
returned without touching the browser or the table; otherwise the extractor
runs and the write block raises AttributeError with the table rolled back. -/
def get_pricing (micro amazon : String → Option ℚ) (now1 now2 : Int)
    (name : String) (url : Option String) (table : Table) : RunResult :=
  match url with
  | none => RunResult.mk (Outcome.ok np_inf) table []
  | some u =>
    match parse_domain u with
    | none => RunResult.mk (Outcome.exn PyErr.indexError) table []
    | some domain =>
      match fetchone table u with
      | some r =>
        if is_fresh r now1 then
          RunResult.mk (Outcome.ok r.price) table []
        else
          dispatch_and_store micro amazon now2 name u domain true table
      | none => dispatch_and_store micro amazon now2 name u domain false table

/-- One step of the running minimum of line 124:
if price < min_price then min_price = price. -/
def step_min (m p : PyFloat) : PyFloat :=
  if PyFloat.lt p m then p else m

/-- The value best_price computes over a list of prices: the running minimum
starting from np.inf (line 121). -/
def fold_min (ps : List PyFloat) : PyFloat :=
  ps.foldl step_min np_inf

/-- The loop of Product.best_price (lines 121-125): iterate over the link
values, threading the table and accumulating the minimum; an exception from
get_pricing propagates. -/
def best_price_go (micro amazon : String → Option ℚ) (now1 now2 : Int)
    (name : String) :
    List (Option String) → PyFloat → Table → List Ev → RunResult
  | [], m, table, log => RunResult.mk (Outcome.ok m) table log
  | l :: rest, m, table, log =>
    match get_pricing micro amazon now1 now2 name l table with
    | RunResult.mk (Outcome.ok p) t ev =>
      best_price_go micro amazon now1 now2 name rest (step_min m p) t (log ++ ev)
    | RunResult.mk (Outcome.exn e) t ev =>
      RunResult.mk (Outcome.exn e) t (log ++ ev)

/-- Product.best_price (lines 119-127): the minimum over the prices obtained
for the product's links, starting from np.inf.  A Python dict value that is
absent contributes nothing; a None url yields np.inf from get_pricing. -/
def best_price (micro amazon : String → Option ℚ) (now1 now2 : Int)
    (name : String) (links : List (Option String)) (table : Table) : RunResult :=
  best_price_go micro amazon now1 now2 name links np_inf table []

/-- Line 144's contribution of one best price to the running total:
price if price < np.inf else 0. -/
def contrib (p : PyFloat) : ℚ :=
  if PyFloat.lt p np_inf then p.toQ else 0

/-- Sum of the line-144 contributions of a recorded price list. -/
def contribs (prices : List (String × PyFloat)) : ℚ :=
  (prices.map (fun pr => contrib pr.2)).sum

/-- Full observable result of PCBuild.report_build: none means the loop
completed (out carries a raised exception otherwise), prices is the
self.prices mapping in insertion order, total is toal_price. -/
structure ReportResult where
  out : Option PyErr
  prices : List (String × PyFloat)
  total : ℚ
  table : Table
  log : List Ev
deriving DecidableEq

/-- The loop of PCBuild.report_build (lines 141-144): for each part record
its best price and add it to the total when it is below np.inf; an exception
from best_price propagates. -/
def report_build_go (micro amazon : String → Option ℚ) (now1 now2 : Int) :
    List (String × List (Option String)) → List (String × PyFloat) → ℚ →
      Table → List Ev → ReportResult
  | [], prices, total, table, log => ReportResult.mk none prices total table log
  | (pname, links) :: rest, prices, total, table, log =>
    match best_price micro amazon now1 now2 pname links table with
    | RunResult.mk (Outcome.ok p) t ev =>
      report_build_go micro amazon now1 now2 rest (prices ++ [(pname, p)])
        (total + contrib p) t (log ++ ev)
    | RunResult.mk (Outcome.exn e) t ev =>
      ReportResult.mk (some e) prices total t (log ++ ev)

/-- PCBuild.report_build (lines 136-149), up to the CSV write (excluded as
glue): parts are (name, link list) pairs. -/
def report_build (micro amazon : String → Option ℚ) (now1 now2 : Int)
    (parts : List (String × List (Option String))) (table : Table) :
    ReportResult :=
  report_build_go micro amazon now1 now2 parts [] 0 table []

/-- A link for which get_pricing completes without extraction: either no url,
or a url with a parseable domain and a cached row fresh at now1. -/
def link_ok (table : Table) (now1 : Int) : Option String → Prop
  | none => True
  | some u => (∃ d, parse_domain u = some d) ∧
      ∃ r, fetchone table u = some r ∧ is_fresh r now1 = true

/-- The price a link contributes in the fresh-cache regime: np.inf for an
absent url, else the cached price (np.inf when no row exists). -/
def obtained_price (table : Table) : Option String → PyFloat
  | none => np_inf
  | some u =>
    match fetchone table u with
    | some r => r.price
    | none => np_inf

/-! Helper lemmas about the embedding, shared by several claims. -/

theorem pySplit_length (sep : Char) (l : List Char) :
    (pySplit sep l).length = l.count sep + 1 := by
  induction l with
  | nil => rfl
  | cons c rest ih =>
    cases hres : pySplit sep rest with
    | nil => rw [hres] at ih; simp at ih
    | cons s ss =>
      rw [hres] at ih
      simp only [List.length_cons] at ih
      by_cases hc : c = sep
      · simp [pySplit, hres, hc, List.count_cons]
        omega
      · simp [pySplit, hres, hc, List.count_cons]
        omega

theorem get_pricing_none_url (micro amazon : String → Option ℚ)
    (now1 now2 : Int) (name : String) (table : Table) :
    get_pricing micro amazon now1 now2 name none table
      = RunResult.mk (Outcome.ok np_inf) table [] := rfl

theorem get_pricing_fresh_hit (micro amazon : String → Option ℚ)
    (now1 now2 : Int) (name u : String) (table : Table) (d : List Char)
    (r : Row) (hd : parse_domain u = some d) (hr : fetchone table u = some r)
    (hf : is_fresh r now1 = true) :
    get_pricing micro amazon now1 now2 name (some u) table
      = RunResult.mk (Outcome.ok r.price) table [] := by
  simp [get_pricing, hd, hr, hf]

theorem step_min_eq_inf (m p : PyFloat) (h : step_min m p = np_inf) :
    m = np_inf ∧ p = np_inf := by
  unfold step_min at h
  cases p with
  | inf =>
    cases m with
    | inf => exact ⟨rfl, rfl⟩
    | fin a => simp [PyFloat.lt, np_inf] at h
  | fin q =>
    cases m with
    | inf => simp [PyFloat.lt, np_inf] at h
    | fin a => split at h <;> simp [np_inf] at h

theorem foldl_step_min_eq_inf (ps : List PyFloat) (m : PyFloat)
    (h : ps.foldl step_min m = np_inf) :
    m = np_inf ∧ ∀ q : ℚ, PyFloat.fin q ∉ ps := by
  induction ps generalizing m with
  | nil => exact ⟨h, by simp⟩
  | cons p rest ih =>
    obtain ⟨hstep, hrest⟩ := ih (step_min m p) (by simpa using h)
    obtain ⟨hm, hp⟩ := step_min_eq_inf m p hstep
    refine ⟨hm, fun q hq => ?_⟩
    rcases List.mem_cons.mp hq with hq | hq
    · rw [hp] at hq; exact PyFloat.noConfusion hq
    · exact hrest q hq

theorem best_price_go_all_ok (micro amazon : String → Option ℚ)
    (now1 now2 : Int) (name : String) (links : List (Option String))
    (m : PyFloat) (table : Table) (log : List Ev)
    (h : ∀ l ∈ links, link_ok table now1 l) :
    best_price_go micro amazon now1 now2 name links m table log
      = RunResult.mk
          (Outcome.ok ((links.map (obtained_price table)).foldl step_min m))
          table log := by
  induction links generalizing m log with
  | nil => rfl
  | cons l rest ih =>
    have hl := h l (List.mem_cons_self _ _)
    have hrest : ∀ x ∈ rest, link_ok table now1 x :=
      fun x hx => h x (List.mem_cons_of_mem _ hx)
    cases l with
    | none =>
      simp only [best_price_go, get_pricing]
      rw [ih _ _ hrest]
      simp [obtained_price]
    | some u =>
      obtain ⟨⟨d, hd⟩, r, hr, hf⟩ := hl
      have hgp := get_pricing_fresh_hit micro amazon now1 now2 name u table d
        r hd hr hf
      simp only [best_price_go, hgp]
      rw [ih _ _ hrest]
      simp [obtained_price, hr]

theorem report_build_go_total (micro amazon : String → Option ℚ)
    (now1 now2 : Int) (parts : List (String × List (Option String)))
    (prices : List (String × PyFloat)) (total : ℚ) (table : Table)
    (log : List Ev) :
    (report_build_go micro amazon now1 now2 parts prices total table log).total
        - contribs
          (report_build_go micro amazon now1 now2 parts prices total
            table log).prices
      = total - contribs prices := by
  induction parts generalizing prices total table log with
  | nil => rfl
  | cons part rest ih =>
    rcases part with ⟨pname, links⟩
    rcases hb : best_price micro amazon now1 now2 pname links table with
      ⟨out, t, ev⟩
    cases out with
    | ok p =>
      simp only [report_build_go, hb]
      rw [ih]
      simp [contribs]
    | exn e =>
      simp only [report_build_go, hb]

/-! The claims. -/

/-- C1: for every URL that has a record in the price cache whose timestamp is
within the freshness window at the time of the call, get_pricing returns that
record's cached price and performs no extraction: the result is the cached
price for every extractor oracle, the event log is empty (no navigation, no
extractor dispatch), and the table is untouched.  The domain parse of lines
70-71 runs first, so the hypothesis that it succeeds is needed to reach the
cache read. -/
theorem C1_fresh_cache_hit (micro amazon : String → Option ℚ)
    (now1 now2 : Int) (name u : String) (table : Table) (d : List Char)
    (r : Row) (hd : parse_domain u = some d) (hr : fetchone table u = some r)
    (hf : is_fresh r now1 = true) :
    get_pricing micro amazon now1 now2 name (some u) table
      = RunResult.mk (Outcome.ok r.price) table [] :=
  get_pricing_fresh_hit micro amazon now1 now2 name u table d r hd hr hf

/-- Witness for C1 at a concrete fresh cache state. -/
theorem C1_fresh_cache_hit_witness :
    get_pricing (fun _ => none) (fun _ => none) 100 0 "cpu" (some "//a.b/1")
        [Row.mk "//a.b/1" (PyFloat.fin 3) 50]
      = RunResult.mk (Outcome.ok (PyFloat.fin 3))
          [Row.mk "//a.b/1" (PyFloat.fin 3) 50] [] :=
  C1_fresh_cache_hit (fun _ => none) (fun _ => none) 100 0 "cpu" "//a.b/1"
    [Row.mk "//a.b/1" (PyFloat.fin 3) 50] ("b".data)
    (Row.mk "//a.b/1" (PyFloat.fin 3) 50) (by decide) (by decide) (by decide)

/-- C2: a cached record counts as fresh iff now minus its stored timestamp is
at most 86400 seconds: at most 86400 (in particular exactly 86400) the cached
price is returned with no extraction, and strictly older the call proceeds to
the re-extraction-and-store block of lines 90-111. -/
theorem C2_freshness_window (micro amazon : String → Option ℚ)
    (now1 now2 : Int) (name u : String) (table : Table) (d : List Char)
    (r : Row) (hd : parse_domain u = some d) (hr : fetchone table u = some r) :
    (now1 - r.time ≤ 86400 →
      get_pricing micro amazon now1 now2 name (some u) table
        = RunResult.mk (Outcome.ok r.price) table [])
    ∧ (86400 < now1 - r.time →
      get_pricing micro amazon now1 now2 name (some u) table
        = dispatch_and_store micro amazon now2 name u d true table) := by
  constructor
  · intro h
    exact get_pricing_fresh_hit micro amazon now1 now2 name u table d r hd hr
      (by simp only [is_fresh, decide_eq_true_eq]; exact h)
  · intro h
    have hf : is_fresh r now1 = false := by simp [is_fresh]; omega
    simp [get_pricing, hd, hr, hf]

/-- Witness for C2: with the record stored at time 0, a call at 86400 returns
the cached price, and a call at 86401 goes through the extraction block. -/
theorem C2_freshness_window_witness :
    get_pricing (fun _ => some 4) (fun _ => none) 86400 99 "cpu"
        (some "//m.microcenter/p")
        [Row.mk "//m.microcenter/p" (PyFloat.fin 9) 0]
      = RunResult.mk (Outcome.ok (PyFloat.fin 9))
          [Row.mk "//m.microcenter/p" (PyFloat.fin 9) 0] []
    ∧ get_pricing (fun _ => some 4) (fun _ => none) 86401 99 "cpu"
        (some "//m.microcenter/p")
        [Row.mk "//m.microcenter/p" (PyFloat.fin 9) 0]
      = RunResult.mk (Outcome.exn PyErr.attributeError)
          [Row.mk "//m.microcenter/p" (PyFloat.fin 9) 0]
          [Ev.dispatch "microcenter".data,
            Ev.navigate "//m.microcenter/p"] := by
  constructor
  · exact (C2_freshness_window (fun _ => some 4) (fun _ => none) 86400 99
      "cpu" "//m.microcenter/p" [Row.mk "//m.microcenter/p" (PyFloat.fin 9) 0]
      ("microcenter".data) (Row.mk "//m.microcenter/p" (PyFloat.fin 9) 0)
      (by decide) (by decide)).1 (by decide)
  · rw [(C2_freshness_window (fun _ => some 4) (fun _ => none) 86401 99
      "cpu" "//m.microcenter/p" [Row.mk "//m.microcenter/p" (PyFloat.fin 9) 0]
      ("microcenter".data) (Row.mk "//m.microcenter/p" (PyFloat.fin 9) 0)
      (by decide) (by decide)).2 (by decide)]
    decide

/-- C3 (code bug): a request for a stale URL is supposed to update the
existing row in place, but the write block raises AttributeError at
price.round(2) and the sqlite3 context manager rolls the UPDATE back: at this
concrete stale state (row stored at time 0, request at 100000) the call
raises and the row keeps its old price and timestamp. -/
theorem C3_stale_row_not_updated :
    get_pricing (fun _ => some 7) (fun _ => none) 100000 100001 "cpu"
        (some "//b.microcenter/q")
        [Row.mk "//b.microcenter/q" (PyFloat.fin 5) 0]
      = RunResult.mk (Outcome.exn PyErr.attributeError)
          [Row.mk "//b.microcenter/q" (PyFloat.fin 5) 0]
          [Ev.dispatch "microcenter".data,
            Ev.navigate "//b.microcenter/q"] := by
  decide

/-- C4 (code bug): a failed extraction (no pricing element found) is supposed
to cache the np.inf sentinel, but the write block raises AttributeError and
rolls the INSERT back: with an empty cache the call raises and the table
stays empty, so nothing is memoized and the sentinel is never returned. -/
theorem C4_failed_extraction_not_cached :
    get_pricing (fun _ => none) (fun _ => none) 0 1 "cpu"
        (some "//a.microcenter/p") []
      = RunResult.mk (Outcome.exn PyErr.attributeError) []
          [Ev.dispatch "microcenter".data,
            Ev.navigate "//a.microcenter/p"] := by
  decide

/-- C7 (code bug): an unsupported domain does emit the warning of line 97,
but the call then raises AttributeError at price.round(2) instead of
returning the sys.float_info.max sentinel to its caller. -/
theorem C7_unsupported_domain_warns_then_raises :
    get_pricing (fun _ => none) (fun _ => none) 0 1 "gpu"
        (some "//a.newegg/x") []
      = RunResult.mk (Outcome.exn PyErr.attributeError) []
          [Ev.warn "gpu" "newegg".data] := by
  decide

/-- C8 (code bug): get_pricing (and hence best_price and report_build, which
call it) does not terminate normally on every input: any cache-miss call
raises AttributeError at price.round(2), here shown for a supported domain
with an empty cache, both directly and through report_build. -/
theorem C8_operations_raise :
    (get_pricing (fun _ => none) (fun _ => none) 0 1 "ssd"
        (some "//a.amazon/y") []).out = Outcome.exn PyErr.attributeError
    ∧ (report_build (fun _ => none) (fun _ => none) 0 1
        [("ssd", [some "//a.amazon/y"])] []).out
      = some PyErr.attributeError := by
  constructor
  · decide
  · decide

/-- C9: on a fresh cache hit, get_pricing leaves the prices table completely
unchanged: the committed table after the call is the table before it. -/
theorem C9_fresh_hit_table_unchanged (micro amazon : String → Option ℚ)
    (now1 now2 : Int) (name u : String) (table : Table) (d : List Char)
    (r : Row) (hd : parse_domain u = some d) (hr : fetchone table u = some r)
    (hf : is_fresh r now1 = true) :
    (get_pricing micro amazon now1 now2 name (some u) table).table = table := by
  rw [get_pricing_fresh_hit micro amazon now1 now2 name u table d r hd hr hf]

/-- Witness for C9 at a concrete two-row table. -/
theorem C9_fresh_hit_table_unchanged_witness :
    (get_pricing (fun _ => none) (fun _ => none) 10 20 "gpu" (some "//x.y/2")
        [Row.mk "//x.y/2" (PyFloat.fin 8) 5, Row.mk "//z.w/3" np_inf 1]).table
      = [Row.mk "//x.y/2" (PyFloat.fin 8) 5, Row.mk "//z.w/3" np_inf 1] :=
  C9_fresh_hit_table_unchanged (fun _ => none) (fun _ => none) 10 20 "gpu"
    "//x.y/2" [Row.mk "//x.y/2" (PyFloat.fin 8) 5, Row.mk "//z.w/3" np_inf 1]
    ("y".data) (Row.mk "//x.y/2" (PyFloat.fin 8) 5) (by decide) (by decide)
    (by decide)

/-- C10: for every non-None url that has fewer than two '/' characters, or
whose third '/'-separated segment has no '.', get_pricing raises IndexError
in the domain parse of lines 70-71, before any cache read or network access:
for every table and every extractor oracle the result is the IndexError with
the table unchanged and an empty event log. -/
theorem C10_malformed_url_index_error (micro amazon : String → Option ℚ)
    (now1 now2 : Int) (name u : String) (table : Table)
    (h : u.data.count '/' < 2 ∨
      ∀ seg, (pySplit '/' u.data).get? 2 = some seg → '.' ∉ seg) :
    get_pricing micro amazon now1 now2 name (some u) table
      = RunResult.mk (Outcome.exn PyErr.indexError) table [] := by
  have hpd : parse_domain u = none := by
    unfold parse_domain
    rcases h with h1 | h2
    · have hn : (pySplit '/' u.data).get? 2 = none := by
        apply List.get?_eq_none.mpr
        rw [pySplit_length]
        omega
      rw [hn]
    · cases hseg : (pySplit '/' u.data).get? 2 with
      | none => rfl
      | some seg =>
        have hdot : seg.count '.' = 0 := List.count_eq_zero.mpr (h2 seg hseg)
        have hn : (pySplit '.' seg).get? 1 = none := by
          apply List.get?_eq_none.mpr
          rw [pySplit_length]
          omega
        simpa using hn
  simp [get_pricing, hpd]

/-- Witness for C10: a url with no '/' at all raises IndexError even though
the table holds a fresh row for that exact url. -/
theorem C10_malformed_url_index_error_witness :
    get_pricing (fun _ => none) (fun _ => none) 0 0 "cpu" (some "nourl")
        [Row.mk "nourl" (PyFloat.fin 1) 0]
      = RunResult.mk (Outcome.exn PyErr.indexError)
          [Row.mk "nourl" (PyFloat.fin 1) 0] [] :=
  C10_malformed_url_index_error (fun _ => none) (fun _ => none) 0 0 "cpu"
    "nourl" [Row.mk "nourl" (PyFloat.fin 1) 0] (Or.inl (by decide))

/-- C6: when every configured link either holds no url or hits a fresh
cached record (the cases in which get_pricing returns a price), best_price
returns the running minimum, from np.inf, over the prices obtained for the
links, leaving the table untouched; and a sentinel never wins against a real
price: the minimum is np.inf only if no obtained price was finite. -/
theorem C6_best_price_minimum (micro amazon : String → Option ℚ)
    (now1 now2 : Int) (name : String) (links : List (Option String))
    (table : Table) (h : ∀ l ∈ links, link_ok table now1 l) :
    best_price micro amazon now1 now2 name links table
      = RunResult.mk
          (Outcome.ok (fold_min (links.map (obtained_price table)))) table []
    ∧ (fold_min (links.map (obtained_price table)) = np_inf →
        ∀ q : ℚ, PyFloat.fin q ∉ links.map (obtained_price table)) := by
  constructor
  · exact best_price_go_all_ok micro amazon now1 now2 name links np_inf
      table [] h
  · intro hinf q
    exact (foldl_step_min_eq_inf (links.map (obtained_price table)) np_inf
      hinf).2 q

/-- Witness for C6: over retailer prices 10.0, absent and 7.5 the best price
is 7.5. -/
theorem C6_best_price_minimum_witness :
    best_price (fun _ => none) (fun _ => none) 0 0 "mobo"
        [some "//a.b/1", none, some "//a.b/2"]
        [Row.mk "//a.b/1" (PyFloat.fin 10) 0,
          Row.mk "//a.b/2" (PyFloat.fin (15 / 2)) 0]
      = RunResult.mk (Outcome.ok (PyFloat.fin (15 / 2)))
          [Row.mk "//a.b/1" (PyFloat.fin 10) 0,
            Row.mk "//a.b/2" (PyFloat.fin (15 / 2)) 0] [] := by
  have hl : ∀ l ∈ [some "//a.b/1", none, some "//a.b/2"],
      link_ok [Row.mk "//a.b/1" (PyFloat.fin 10) 0,
        Row.mk "//a.b/2" (PyFloat.fin (15 / 2)) 0] 0 l := by
    intro l hmem
    simp only [List.mem_cons, List.mem_singleton, List.not_mem_nil,
      or_false] at hmem
    rcases hmem with rfl | rfl | rfl
    · exact ⟨⟨"b".data, by decide⟩,
        Row.mk "//a.b/1" (PyFloat.fin 10) 0, rfl, by decide⟩
    · trivial
    · exact ⟨⟨"b".data, by decide⟩,
        Row.mk "//a.b/2" (PyFloat.fin (15 / 2)) 0, rfl, by decide⟩
  rw [(C6_best_price_minimum (fun _ => none) (fun _ => none) 0 0 "mobo"
    [some "//a.b/1", none, some "//a.b/2"]
    [Row.mk "//a.b/1" (PyFloat.fin 10) 0,
      Row.mk "//a.b/2" (PyFloat.fin (15 / 2)) 0] hl).1]
  simp [fold_min, obtained_price, fetchone, step_min, PyFloat.lt]
  norm_num

/-- C5 counterexample: the claim that every sentinel (unknown or unavailable)
contributes exactly 0 to the total fails: with a fresh cached row holding the
unavailable sentinel sys.float_info.max as the only best price, the total is
the sentinel's huge value, not 0, because sys.float_info.max < np.inf passes
line 144's test. -/
theorem C5_sentinel_contribution_counterexample :
    (report_build (fun _ => none) (fun _ => none) 0 0
        [("gpu", [some "//a.b/x"])]
        [Row.mk "//a.b/x" sys_float_info_max 0]).total ≠ 0 := by
  simp [report_build, report_build_go, best_price, best_price_go, get_pricing,
    parse_domain, pySplit, fetchone, is_fresh, step_min, contrib,
    PyFloat.lt, PyFloat.toQ, sys_float_info_max, np_inf]
  norm_num

/-- C5 amended: the build-report total is the sum over the recorded best
prices of line 144's contribution, which is 0 exactly for infinite prices
(np.inf, the unknown sentinel) and the price's own value for every finite
price -- including the finite unavailable sentinel sys.float_info.max, which
contributes 2^1024 - 2^971 rather than 0.  In particular, for best prices
5.0 and np.inf the total is 5.0. -/
theorem C5_total_sums_line144_contributions (micro amazon : String → Option ℚ)
    (now1 now2 : Int) (parts : List (String × List (Option String)))
    (table : Table) :
    (report_build micro amazon now1 now2 parts table).total
      = contribs (report_build micro amazon now1 now2 parts table).prices
    ∧ contrib np_inf = 0
    ∧ contrib sys_float_info_max = 2 ^ 1024 - 2 ^ 971
    ∧ (report_build (fun _ => none) (fun _ => none) 0 0
        [("cpu", [some "//c.d/1"]), ("gpu", [])]
        [Row.mk "//c.d/1" (PyFloat.fin 5) 0]).total = 5 := by
  refine ⟨?_, ?_, ?_, ?_⟩
  · have h := report_build_go_total micro amazon now1 now2 parts [] 0 table []
    simp only [contribs, List.map_nil, List.sum_nil, sub_zero] at h
    unfold report_build
    simp only [contribs] at h ⊢
    linarith [h]
  · rfl
  · simp [contrib, PyFloat.lt, sys_float_info_max, PyFloat.toQ]
  · simp [report_build, report_build_go, best_price, best_price_go,
      get_pricing, parse_domain, pySplit, fetchone, is_fresh, step_min,
      contrib, PyFloat.lt, PyFloat.toQ, np_inf]

end PriceChecker
